import Mathlib

/-!
Verification of the meditation-tracking client's session lifecycle and
record-access layer (shallow embedding of the TypeScript source).

The record-access layer (services/API) validates inputs, shapes remote
repository records and maps listing responses; the sign-out handler in
app.ts clears the local session after remote revocation.  Every pure part
of those functions is embedded directly; the two effectful boundaries are
made explicit parameters:

* the remote repository call is modelled by splitting each operation at
  the network boundary: the embedded function returns `Except JSError R`
  where `R` is the exact request handed to the remote client, and an
  `Except.error` value models an exception thrown before any network
  interaction takes place;
* the wall clock (`new Date().toISOString()`) is an explicit `now`
  argument, and the outcome of the remote revocation call in the logout
  handler is an explicit `Except` argument.

JavaScript numbers are modelled as rationals extended with NaN and the
two infinities, so that the source's comparison and truthiness semantics
(`NaN < 0` is false, `"" ` is falsy, arrays are truthy) are preserved.
-/

namespace Meditation

/-- A JavaScript number: a finite value (every float is a rational), NaN,
or a signed infinity. -/
inductive JSNum where
  | num : ℚ → JSNum
  | nan : JSNum
  | posInf : JSNum
  | negInf : JSNum
deriving DecidableEq, Repr

/-- JavaScript `<` on numbers: any comparison involving NaN is false. -/
def JSNum.lt : JSNum → JSNum → Bool
  | .num a, .num b => decide (a < b)
  | .num _, .posInf => true
  | .negInf, .num _ => true
  | .negInf, .posInf => true
  | _, _ => false

/-- JavaScript `Math.floor`: floor on finite values; NaN and the
infinities are returned unchanged. -/
def JSNum.floor : JSNum → JSNum
  | .num q => .num ((q.floor : ℤ) : ℚ)
  | n => n

instance {ε α : Type} [DecidableEq ε] [DecidableEq α] :
    DecidableEq (Except ε α) := fun x y =>
  match x, y with
  | .error a, .error b =>
      if h : a = b then .isTrue (by rw [h])
      else .isFalse fun c => h (Except.error.inj c)
  | .ok a, .ok b =>
      if h : a = b then .isTrue (by rw [h])
      else .isFalse fun c => h (Except.ok.inj c)
  | .error _, .ok _ => .isFalse fun c => Except.noConfusion c
  | .ok _, .error _ => .isFalse fun c => Except.noConfusion c

/-- A JavaScript runtime value, as far as the validation code can
distinguish them with `typeof` and truthiness tests. -/
inductive JSValue where
  | vnum : JSNum → JSValue
  | vstr : String → JSValue
  | vbool : Bool → JSValue
  | vnull : JSValue
  | vundefined : JSValue
deriving DecidableEq, Repr

/-- JavaScript `typeof v === number`. -/
def JSValue.isNumber : JSValue → Bool
  | .vnum _ => true
  | _ => false

/-- JavaScript `typeof v === string`. -/
def JSValue.isString : JSValue → Bool
  | .vstr _ => true
  | _ => false

/-- JavaScript truthiness: `0`, `NaN`, the empty string, `false`, `null`
and `undefined` are falsy; everything else here is truthy. -/
def JSValue.truthy : JSValue → Bool
  | .vnum (.num q) => decide (q ≠ 0)
  | .vnum .nan => false
  | .vnum .posInf => true
  | .vnum .negInf => true
  | .vstr s => decide (s ≠ "")
  | .vbool b => b
  | .vnull => false
  | .vundefined => false

/-- The `.length` of a string value (only consulted after a
`typeof === string` guard in the source). -/
def JSValue.strLength : JSValue → Nat
  | .vstr s => s.length
  | _ => 0

/-- The numeric content of a value (only consulted after a
`typeof === number` guard in the source). -/
def JSValue.toNum : JSValue → JSNum
  | .vnum n => n
  | _ => .nan

/-- The string content of a value (only consulted after a
`typeof === string` guard in the source). -/
def JSValue.asString : JSValue → String
  | .vstr s => s
  | _ => ""

/-- JavaScript `v < q` for a rational literal `q` on the right. -/
def JSValue.ltNum (v : JSValue) (q : ℚ) : Bool :=
  JSNum.lt v.toNum (.num q)

/-- JavaScript `a > b` on two values (numeric comparison; false whenever
either side is NaN or not a number). -/
def JSValue.gtVal (a b : JSValue) : Bool :=
  JSNum.lt b.toNum a.toNum

/-- The OAuth session held in the module-level `session` variable; the
record-access layer only ever reads its subject identifier `sub`. -/
structure OAuthSession where
  sub : String
deriving DecidableEq, Repr

/-- A thrown JavaScript `Error`, identified by its message. -/
structure JSError where
  message : String
deriving DecidableEq, Repr

/-- One entry of the `soundIntervals` argument, fields kept as raw
runtime values because the source validates them dynamically. -/
structure SoundIntervalArg where
  time : JSValue
  soundType : JSValue
deriving DecidableEq, Repr

/-- The record body built by `createMeditationSession`; optional fields
are `none` exactly when the source omits the key from the object. -/
structure MeditationSessionRecord where
  type : String
  createdAt : String
  duration : JSNum
  presetId : Option String
  notes : Option String
deriving DecidableEq, Repr

/-- The record body built by `createPreset`; `soundIntervals` is `none`
exactly when the source omits the key. -/
structure PresetRecordBody where
  type : String
  name : String
  duration : JSNum
  createdAt : String
  soundIntervals : Option (List SoundIntervalArg)
deriving DecidableEq, Repr

/-- The argument object handed to `agent.com.atproto.repo.createRecord`. -/
structure CreateRecordRequest (R : Type) where
  repo : String
  collection : String
  record : R
deriving DecidableEq, Repr

/-- The query object handed to `agent.com.atproto.repo.listRecords`; the
`cursor` field is `none` exactly when the spread `...(cursor && { cursor })`
adds no key. -/
structure ListQueryParams where
  repo : String
  collection : String
  limit : JSNum
  reverse : Bool
  cursor : Option String
deriving DecidableEq, Repr

/-- Source helper `ensureSession`: throws when the module-level session
is null, otherwise returns it. -/
def ensureSession (session : Option OAuthSession) : Except JSError OAuthSession :=
  match session with
  | none => .error ⟨"User not logged in. Please sign in first."⟩
  | some s => .ok s

/-- Embedding of `createMeditationSession(duration, presetId, notes)` up
to the network boundary: `.ok req` means the source reaches
`createRecord(req)`; `.error e` means it throws `e` before any network
call.  Validation order, truthiness guards and `Math.floor` follow the
source line by line (`createAgent()` runs `ensureSession` after the
record object is built). -/
def createMeditationSession (session : Option OAuthSession) (now : String)
    (duration presetId notes : JSValue) :
    Except JSError (CreateRecordRequest MeditationSessionRecord) :=
  if !duration.isNumber || duration.ltNum 0 then
    .error ⟨"Duration must be a non-negative number"⟩
  else if presetId.truthy && !presetId.isString then
    .error ⟨"presetId must be a string"⟩
  else if presetId.truthy && decide (presetId.strLength > 100) then
    .error ⟨"presetId cannot exceed 100 characters"⟩
  else if notes.truthy && !notes.isString then
    .error ⟨"notes must be a string"⟩
  else if notes.truthy && decide (notes.strLength > 1000) then
    .error ⟨"notes cannot exceed 1000 characters"⟩
  else
    let record : MeditationSessionRecord :=
      { type := "place.starting.meditationSession"
        createdAt := now
        duration := duration.toNum.floor
        presetId := if presetId.truthy then some presetId.asString else none
        notes := if notes.truthy then some notes.asString else none }
    (ensureSession session).bind fun s =>
      .ok { repo := s.sub
            collection := "place.starting.meditationSession"
            record := record }

/-- The error message the interval loop throws for a bad `time` at
index `i`. -/
def intervalTimeMsg (i : Nat) : String :=
  "soundIntervals[" ++ toString i ++ "].time must be a non-negative number"

/-- The error message for a missing or non-string `soundType` at
index `i`. -/
def intervalSoundTypeReqMsg (i : Nat) : String :=
  "soundIntervals[" ++ toString i ++ "].soundType is required and must be a string"

/-- The error message for an oversized `soundType` at index `i`. -/
def intervalSoundTypeLenMsg (i : Nat) : String :=
  "soundIntervals[" ++ toString i ++ "].soundType cannot exceed 50 characters"

/-- The error message for a `time` past the preset duration at
index `i`. -/
def intervalTimeLateMsg (i : Nat) : String :=
  "soundIntervals[" ++ toString i ++ "].time cannot be later than preset duration"

/-- The four messages the interval loop can throw at index `i`; each one
names the index. -/
def intervalMsgs (i : Nat) : List String :=
  [intervalTimeMsg i, intervalSoundTypeReqMsg i,
   intervalSoundTypeLenMsg i, intervalTimeLateMsg i]

/-- One iteration of the interval validation loop in `createPreset`,
checking entry `iv` at index `i` against the raw `duration` argument, in
the source's order of the four guards. -/
def checkInterval (duration : JSValue) (i : Nat) (iv : SoundIntervalArg) :
    Except JSError Unit :=
  if !iv.time.isNumber || iv.time.ltNum 0 then
    .error ⟨intervalTimeMsg i⟩
  else if !iv.soundType.truthy || !iv.soundType.isString then
    .error ⟨intervalSoundTypeReqMsg i⟩
  else if decide (iv.soundType.strLength > 50) then
    .error ⟨intervalSoundTypeLenMsg i⟩
  else if iv.time.gtVal duration then
    .error ⟨intervalTimeLateMsg i⟩
  else
    .ok ()

/-- The interval validation loop of `createPreset`, started at index `i`
(the source starts it at 0); stops at the first failing entry. -/
def validateSoundIntervals (duration : JSValue) :
    Nat → List SoundIntervalArg → Except JSError Unit
  | _, [] => .ok ()
  | i, iv :: rest =>
      (checkInterval duration i iv).bind fun _ =>
        validateSoundIntervals duration (i + 1) rest

/-- Embedding of `createPreset(name, duration, soundIntervals)` up to
the network boundary, following the source's guard order.  The
`Array.isArray` guard is omitted: the argument is typed as a sequence,
so that branch is unreachable.  A `some ivs` argument is truthy even
when `ivs` is empty (JavaScript arrays are always truthy), so the loop
runs on it, and the `soundIntervals` key is added to the record only
when the sequence is non-empty. -/
def createPreset (session : Option OAuthSession) (now : String)
    (name duration : JSValue)
    (soundIntervals : Option (List SoundIntervalArg)) :
    Except JSError (CreateRecordRequest PresetRecordBody) :=
  if !name.truthy || !name.isString then
    .error ⟨"name is required and must be a string"⟩
  else if decide (name.strLength > 100) then
    .error ⟨"name cannot exceed 100 characters"⟩
  else if !duration.isNumber || duration.ltNum 0 then
    .error ⟨"duration must be a non-negative number"⟩
  else
    (match soundIntervals with
      | some ivs => validateSoundIntervals duration 0 ivs
      | none => Except.ok ()).bind fun _ =>
      let record : PresetRecordBody :=
        { type := "place.starting.preset"
          name := name.asString
          duration := duration.toNum.floor
          createdAt := now
          soundIntervals :=
            match soundIntervals with
            | some ivs => if ivs.length > 0 then some ivs else none
            | none => none }
      (ensureSession session).bind fun s =>
        .ok { repo := s.sub
              collection := "place.starting.preset"
              record := record }

/-- JavaScript `x || null` on a possibly-absent string: the empty string
is falsy and collapses to null. -/
def jsOrNull (o : Option String) : Option String :=
  match o with
  | some s => if s = "" then none else some s
  | none => none

/-- Embedding of `getMeditationSessions(options)` up to the network
boundary: limit defaulting and validation, `ensureSession`, and the
construction of the `listRecords` query including the
`...(cursor && { cursor })` spread.  `.ok q` means the source reaches
`listRecords(q)`. -/
def getMeditationSessionsQuery (session : Option OAuthSession)
    (limit : Option JSNum) (cursor : Option String) (reverse : Bool) :
    Except JSError ListQueryParams :=
  let l := limit.getD (.num 50)
  if l.lt (.num 1) || JSNum.lt (.num 100) l then
    .error ⟨"limit must be between 1 and 100"⟩
  else
    (ensureSession session).bind fun s =>
      .ok { repo := s.sub
            collection := "place.starting.meditationSession"
            limit := l
            reverse := reverse
            cursor :=
              match cursor with
              | some c => if c = "" then none else some c
              | none => none }

/-- Embedding of `getPresets(options)` up to the network boundary; same
shape as `getMeditationSessionsQuery` with the preset collection. -/
def getPresetsQuery (session : Option OAuthSession)
    (limit : Option JSNum) (cursor : Option String) (reverse : Bool) :
    Except JSError ListQueryParams :=
  let l := limit.getD (.num 50)
  if l.lt (.num 1) || JSNum.lt (.num 100) l then
    .error ⟨"limit must be between 1 and 100"⟩
  else
    (ensureSession session).bind fun s =>
      .ok { repo := s.sub
            collection := "place.starting.preset"
            limit := l
            reverse := reverse
            cursor :=
              match cursor with
              | some c => if c = "" then none else some c
              | none => none }

/-- The loosely-typed `record.value` object of a remote `listRecords`
response: every field may be absent, since the source reads them with
unchecked casts. -/
structure RemoteValue where
  createdAt : Option String
  duration : Option JSNum
  presetId : Option String
  notes : Option String
  name : Option String
  soundIntervals : Option (List SoundIntervalArg)
deriving DecidableEq, Repr

/-- One record of a remote `listRecords` response. -/
structure RemoteRecord where
  uri : String
  cid : String
  value : RemoteValue
deriving DecidableEq, Repr

/-- The typed application record `getMeditationSessions` maps each remote
record to; `createdAt` and `duration` stay optional because the source's
casts propagate an absent field as undefined. -/
structure MeditationSessionData where
  uri : String
  cid : String
  createdAt : Option String
  duration : Option JSNum
  presetId : Option String
  notes : Option String
deriving DecidableEq, Repr

/-- The value `getMeditationSessions` resolves with. -/
structure MeditationSessionsResponse where
  meditationSessions : List MeditationSessionData
  cursor : Option String
  total : Nat
deriving DecidableEq, Repr

/-- The typed application record `getPresets` maps each remote record
to. -/
structure PresetData where
  uri : String
  cid : String
  name : Option String
  duration : Option JSNum
  createdAt : Option String
  soundIntervals : List SoundIntervalArg
deriving DecidableEq, Repr

/-- The value `getPresets` resolves with. -/
structure PresetsResponse where
  presets : List PresetData
  cursor : Option String
  total : Nat
deriving DecidableEq, Repr

/-- The per-record mapping inside `getMeditationSessions`: unchecked
casts for `createdAt` and `duration`, and `x || null` for the two
optional fields. -/
def mapMeditationRecord (r : RemoteRecord) : MeditationSessionData :=
  { uri := r.uri
    cid := r.cid
    createdAt := r.value.createdAt
    duration := r.value.duration
    presetId := jsOrNull r.value.presetId
    notes := jsOrNull r.value.notes }

/-- The response shaping of `getMeditationSessions` after the network
call: maps each record, passes `cursor || null` through, and sets
`total` to `records.length`. -/
def mapMeditationSessionsResponse (records : List RemoteRecord)
    (respCursor : Option String) : MeditationSessionsResponse :=
  { meditationSessions := records.map mapMeditationRecord
    cursor := jsOrNull respCursor
    total := records.length }

/-- The per-record mapping inside `getPresets`: unchecked casts for
`name`, `duration` and `createdAt`, and `soundIntervals || []` for the
interval list. -/
def mapPresetRecord (r : RemoteRecord) : PresetData :=
  { uri := r.uri
    cid := r.cid
    name := r.value.name
    duration := r.value.duration
    createdAt := r.value.createdAt
    soundIntervals := r.value.soundIntervals.getD [] }

/-- The response shaping of `getPresets` after the network call. -/
def mapPresetsResponse (records : List RemoteRecord)
    (respCursor : Option String) : PresetsResponse :=
  { presets := records.map mapPresetRecord
    cursor := jsOrNull respCursor
    total := records.length }

/-- How the remote repository serves back a preset record body written
by `createPreset`: each present key of the stored object reappears as
the corresponding field of `record.value`. -/
def PresetRecordBody.toRemoteValue (b : PresetRecordBody) : RemoteValue :=
  { createdAt := some b.createdAt
    duration := some b.duration
    presetId := none
    notes := none
    name := some b.name
    soundIntervals := b.soundIntervals }

/-- The three mutually exclusive screens of app.ts (loading, login,
app), toggled by the show*Screen helpers. -/
inductive Screen where
  | loading : Screen
  | login : Screen
  | app : Screen
deriving DecidableEq, Repr

/-- A status banner written by `showStatus(elementId, message, isError)`. -/
structure StatusMsg where
  elementId : String
  message : String
  isError : Bool
deriving DecidableEq, Repr

/-- The user-visible state the logout handler manipulates: the active
screen, the module-level session reference, and the last status banner. -/
structure UIState where
  screen : Screen
  session : Option OAuthSession
  status : Option StatusMsg
deriving DecidableEq, Repr

/-- Embedding of the `logoutButton` click handler of app.ts.  The whole
body sits in one try block: when a session exists the remote
`oauthClient.revoke(session.sub)` call is awaited first (its outcome is
the explicit `revokeResult` argument), and only on success does control
reach `session = null` and `showLoginScreen()`; a revocation failure
jumps to the catch block, which leaves the session reference and the
screen untouched and writes a "Logout failed" status to `appStatus`.
When no session exists the revoke call is skipped and the handler
clears and shows the login screen unconditionally. -/
def logoutClickHandler (st : UIState) (revokeResult : Except JSError Unit) :
    UIState :=
  match st.session with
  | some _ =>
      match revokeResult with
      | .ok _ =>
          { screen := .login
            session := none
            status := some ⟨"loginStatus", "Signed out successfully", false⟩ }
      | .error e =>
          { st with
            status := some ⟨"appStatus", "Logout failed: " ++ e.message, true⟩ }
  | none =>
      { screen := .login
        session := none
        status := some ⟨"loginStatus", "Signed out successfully", false⟩ }

/-- Spec-side reading of a bad `soundIntervals` entry, written from the
spec's words: the entry's time must be a non-negative number not
exceeding the preset's duration, and its soundType must be a non-empty
string of at most 50 characters; the entry is bad when any of that
fails.  Compared below with the source's `checkInterval`. -/
def specBadInterval (duration : JSValue) (iv : SoundIntervalArg) : Bool :=
  !iv.time.isNumber || iv.time.ltNum 0 || iv.time.gtVal duration ||
    !(iv.soundType.isString && decide (iv.soundType ≠ .vstr "") &&
      decide (iv.soundType.strLength ≤ 50))

/-- Spec-side reading of a limit inside the inclusive range [1,100]: a
finite number between 1 and 100.  Compared below with the source's
`limit < 1 || limit > 100` guard. -/
def specLimitInRange (l : JSNum) : Bool :=
  match l with
  | .num q => decide (1 ≤ q ∧ q ≤ 100)
  | _ => false

/-- Arguments that pass every validation guard of
`createMeditationSession`, phrased with the source's own guard
conditions. -/
def validMeditationArgs (duration presetId notes : JSValue) : Prop :=
  (!duration.isNumber || duration.ltNum 0) = false ∧
  (presetId.truthy && !presetId.isString) = false ∧
  (presetId.truthy && decide (presetId.strLength > 100)) = false ∧
  (notes.truthy && !notes.isString) = false ∧
  (notes.truthy && decide (notes.strLength > 1000)) = false

instance (duration presetId notes : JSValue) :
    Decidable (validMeditationArgs duration presetId notes) := by
  unfold validMeditationArgs
  infer_instance

/-- Whether a fallible computation succeeded. -/
def exceptOk {ε α : Type} : Except ε α → Bool
  | .ok _ => true
  | .error _ => false

/-- Arguments that pass every validation guard of `createPreset`,
phrased with the source's own guard conditions. -/
def validPresetArgs (name duration : JSValue)
    (soundIntervals : Option (List SoundIntervalArg)) : Prop :=
  (!name.truthy || !name.isString) = false ∧
  decide (name.strLength > 100) = false ∧
  (!duration.isNumber || duration.ltNum 0) = false ∧
  exceptOk (match soundIntervals with
    | some ivs => validateSoundIntervals duration 0 ivs
    | none => Except.ok ()) = true

instance (name duration : JSValue)
    (soundIntervals : Option (List SoundIntervalArg)) :
    Decidable (validPresetArgs name duration soundIntervals) := by
  unfold validPresetArgs
  infer_instance

/-- The limit guard of the two listing operations, passing. -/
def validLimit (l : JSNum) : Prop :=
  (l.lt (.num 1) || JSNum.lt (.num 100) l) = false

instance (l : JSNum) : Decidable (validLimit l) := by
  unfold validLimit
  infer_instance

/-- The authentication error thrown by `ensureSession`. -/
def authErr : JSError := ⟨"User not logged in. Please sign in first."⟩

/-- A fallible unit computation that reports success is `ok`. -/
theorem exceptOk_eq_ok {ε : Type} {x : Except ε Unit} (h : exceptOk x = true) :
    x = Except.ok () := by
  cases x with
  | ok u => cases u; rfl
  | error e => simp [exceptOk] at h

/-- An entry that is good in the spec's sense passes the source's
per-entry check. -/
theorem checkInterval_ok_of_good (duration : JSValue) (i : Nat)
    (iv : SoundIntervalArg) (h : specBadInterval duration iv = false) :
    checkInterval duration i iv = Except.ok () := by
  rcases iv with ⟨t, st⟩
  cases st with
  | vstr s =>
      simp only [specBadInterval, JSValue.isString, JSValue.strLength,
        Bool.or_eq_false_iff, Bool.not_eq_false', Bool.not_eq_true',
        Bool.and_eq_true, decide_eq_true_eq, ne_eq,
        JSValue.vstr.injEq, Bool.true_and] at h
      obtain ⟨⟨⟨h1, h2⟩, h4⟩, hst, hlen⟩ := h
      simp [checkInterval, JSValue.truthy, JSValue.isString,
        JSValue.strLength, h1, h2, h4, hst, Nat.not_lt.mpr hlen]
  | vnum n => simp [specBadInterval, JSValue.isString] at h
  | vbool b => simp [specBadInterval, JSValue.isString] at h
  | vnull => simp [specBadInterval, JSValue.isString] at h
  | vundefined => simp [specBadInterval, JSValue.isString] at h

/-- An entry that is bad in the spec's sense makes the source's
per-entry check throw, with a message naming the entry's index. -/
theorem checkInterval_error_of_bad (duration : JSValue) (i : Nat)
    (iv : SoundIntervalArg) (h : specBadInterval duration iv = true) :
    ∃ m : JSError, checkInterval duration i iv = .error m ∧
      m.message ∈ intervalMsgs i := by
  rcases iv with ⟨t, st⟩
  cases h1 : (!t.isNumber || t.ltNum 0) with
  | true =>
      exact ⟨⟨intervalTimeMsg i⟩, by simp [checkInterval, h1],
        by simp [intervalMsgs]⟩
  | false =>
  cases h2 : (!st.truthy || !st.isString) with
  | true =>
      exact ⟨⟨intervalSoundTypeReqMsg i⟩, by simp [checkInterval, h1, h2],
        by simp [intervalMsgs]⟩
  | false =>
  cases h3 : decide (st.strLength > 50) with
  | true =>
      exact ⟨⟨intervalSoundTypeLenMsg i⟩, by simp [checkInterval, h1, h2, h3],
        by simp [intervalMsgs]⟩
  | false =>
      simp only [Bool.or_eq_false_iff, Bool.not_eq_false'] at h1 h2
      have h4 : t.gtVal duration = true := by
        cases st with
        | vstr s =>
            have hs : s ≠ "" := by
              simpa [JSValue.truthy] using h2.1
            have hlen : s.length ≤ 50 :=
              Nat.not_lt.mp (by simpa [JSValue.strLength] using h3)
            simpa [specBadInterval, h1.1, h1.2, JSValue.isString,
              JSValue.strLength, hs, Nat.not_lt.mpr hlen] using h
        | vnum n => simp [JSValue.isString] at h2
        | vbool b => simp [JSValue.isString] at h2
        | vnull => simp [JSValue.isString] at h2
        | vundefined => simp [JSValue.isString] at h2
      refine ⟨⟨intervalTimeLateMsg i⟩, ?_, by simp [intervalMsgs]⟩
      have h1' : (!t.isNumber || t.ltNum 0) = false := by
        simp [h1.1, h1.2]
      have h2' : (!st.truthy || !st.isString) = false := by
        simp [h2.1, h2.2]
      simp [checkInterval, h1', h2', h3, h4]

/-- When every entry is good, the interval loop succeeds from any start
index. -/
theorem validateSoundIntervals_ok_of_good (duration : JSValue)
    (ivs : List SoundIntervalArg) (k : Nat)
    (h : ∀ j (hj : j < ivs.length),
      specBadInterval duration (ivs.get ⟨j, hj⟩) = false) :
    validateSoundIntervals duration k ivs = Except.ok () := by
  induction ivs generalizing k with
  | nil => rfl
  | cons iv rest ih =>
      have h0 := h 0 (by simp)
      rw [validateSoundIntervals,
        checkInterval_ok_of_good duration k iv h0]
      exact ih (k + 1) fun j hj => h (j + 1) (by simpa using hj)

/-- When some entry is bad, the interval loop throws, and the message
names a bad entry's index (offset by the start index). -/
theorem validateSoundIntervals_error_of_bad (duration : JSValue)
    (ivs : List SoundIntervalArg) (k : Nat)
    (h : ∃ j, ∃ hj : j < ivs.length,
      specBadInterval duration (ivs.get ⟨j, hj⟩) = true) :
    ∃ m : JSError, ∃ j, ∃ hj : j < ivs.length,
      specBadInterval duration (ivs.get ⟨j, hj⟩) = true ∧
      validateSoundIntervals duration k ivs = .error m ∧
      m.message ∈ intervalMsgs (k + j) := by
  induction ivs generalizing k with
  | nil =>
      obtain ⟨j, hj, -⟩ := h
      exact absurd hj (by simp)
  | cons iv rest ih =>
      cases h0 : specBadInterval duration iv with
      | true =>
          obtain ⟨m, hm, hmem⟩ := checkInterval_error_of_bad duration k iv h0
          refine ⟨m, 0, by simp, h0, ?_, by simpa using hmem⟩
          rw [validateSoundIntervals, hm]
          rfl
      | false =>
          obtain ⟨j, hj, hbad⟩ := h
          cases j with
          | zero => rw [List.get] at hbad; rw [h0] at hbad; cases hbad
          | succ j' =>
              obtain ⟨m, j'', hj'', hbad'', herr, hmem⟩ :=
                ih (k + 1) ⟨j', by simpa using hj, hbad⟩
              refine ⟨m, j'' + 1, by simpa using hj'', hbad'', ?_, ?_⟩
              · rw [validateSoundIntervals,
                  checkInterval_ok_of_good duration k iv h0]
                exact herr
              · have harith : k + 1 + j'' = k + (j'' + 1) := by omega
                rw [harith] at hmem
                exact hmem

/-- Claim C2: in `createPreset`, when the name and duration arguments
are valid, any single `soundIntervals` entry whose time is not a
non-negative number, or exceeds the preset's duration, or whose
soundType is empty, non-string or longer than 50 characters, makes the
whole call throw before the network boundary (so no remote write
happens), with a message naming a bad entry's index; and when every
entry satisfies those conditions the interval validation passes. -/
theorem createPreset_soundIntervals_validation
    (sess : Option OAuthSession) (now : String) (name duration : JSValue)
    (ivs : List SoundIntervalArg)
    (hname1 : (!name.truthy || !name.isString) = false)
    (hname2 : decide (name.strLength > 100) = false)
    (hdur : (!duration.isNumber || duration.ltNum 0) = false) :
    ((∃ j, ∃ hj : j < ivs.length,
        specBadInterval duration (ivs.get ⟨j, hj⟩) = true) →
      ∃ m : JSError,
        createPreset sess now name duration (some ivs) = .error m ∧
        ∃ j, ∃ hj : j < ivs.length,
          specBadInterval duration (ivs.get ⟨j, hj⟩) = true ∧
          m.message ∈ intervalMsgs j) ∧
    ((∀ j (hj : j < ivs.length),
        specBadInterval duration (ivs.get ⟨j, hj⟩) = false) →
      validateSoundIntervals duration 0 ivs = Except.ok ()) := by
  constructor
  · intro hex
    obtain ⟨m, j, hj, hbad, herr, hmem⟩ :=
      validateSoundIntervals_error_of_bad duration ivs 0 hex
    refine ⟨m, ?_, j, hj, hbad, by simpa using hmem⟩
    simp [createPreset, hname1, hname2, hdur, herr, Except.bind]
  · exact validateSoundIntervals_ok_of_good duration ivs 0

/-- Claim C2 (witness): a single entry whose time 20 exceeds the preset
duration 10 rejects the whole creation with a message naming index 0. -/
theorem createPreset_soundIntervals_validation_witness :
    ∃ m : JSError,
      createPreset (some ⟨"did:plc:alice"⟩) "t" (.vstr "p") (.vnum (.num 10))
          (some [⟨.vnum (.num 20), .vstr "bell"⟩]) = .error m ∧
      ∃ j, ∃ hj : j <
          ([⟨.vnum (.num 20), .vstr "bell"⟩] : List SoundIntervalArg).length,
        specBadInterval (.vnum (.num 10))
            (([⟨.vnum (.num 20), .vstr "bell"⟩] :
              List SoundIntervalArg).get ⟨j, hj⟩) = true ∧
        m.message ∈ intervalMsgs j :=
  (createPreset_soundIntervals_validation (some ⟨"did:plc:alice"⟩) "t"
      (.vstr "p") (.vnum (.num 10)) [⟨.vnum (.num 20), .vstr "bell"⟩]
      (by decide) (by decide) (by decide)).1 ⟨0, by decide, by decide⟩

/-- Claim C5: with no active session, all four record-access operations
called with otherwise valid arguments throw the "not logged in"
authentication error before the network boundary; in particular
`getPresets()` with default options fails this way. -/
theorem no_session_auth_error (now : String) (d pid notes name : JSValue)
    (ivs : Option (List SoundIntervalArg)) (l : JSNum)
    (cursor : Option String) (rev : Bool)
    (hm : validMeditationArgs d pid notes)
    (hp : validPresetArgs name d ivs) (hl : validLimit l) :
    createMeditationSession none now d pid notes = .error authErr ∧
    createPreset none now name d ivs = .error authErr ∧
    getMeditationSessionsQuery none (some l) cursor rev = .error authErr ∧
    getPresetsQuery none (some l) cursor rev = .error authErr ∧
    getPresetsQuery none none none false = .error authErr := by
  obtain ⟨hm1, hm2, hm3, hm4, hm5⟩ := hm
  obtain ⟨hp1, hp2, hp3, hp4⟩ := hp
  have hval := exceptOk_eq_ok hp4
  have hl' := hl
  unfold validLimit at hl'
  have h50 : (JSNum.lt (.num 50) (.num 1) ||
      JSNum.lt (.num 100) (.num 50)) = false := by decide
  refine ⟨?_, ?_, ?_, ?_, ?_⟩
  · simp [createMeditationSession, hm1, hm2, hm3, hm4, hm5, ensureSession,
      authErr, Except.bind]
  · simp [createPreset, hp1, hp2, hp3, hval, ensureSession, authErr,
      Except.bind]
  · simp [getMeditationSessionsQuery, hl', ensureSession, authErr,
      Except.bind]
  · simp [getPresetsQuery, hl', ensureSession, authErr, Except.bind]
  · simp [getPresetsQuery, h50, ensureSession, authErr, Except.bind]

/-- Claim C5 (witness): concrete valid arguments, no session: all four
operations (and `getPresets` with defaults) fail with the auth error. -/
theorem no_session_auth_error_witness :
    createMeditationSession none "t" (.vnum (.num 60)) .vnull .vnull =
      .error authErr ∧
    createPreset none "t" (.vstr "p") (.vnum (.num 60)) none =
      .error authErr ∧
    getMeditationSessionsQuery none (some (.num 50)) none false =
      .error authErr ∧
    getPresetsQuery none (some (.num 50)) none false = .error authErr ∧
    getPresetsQuery none none none false = .error authErr :=
  no_session_auth_error "t" (.vnum (.num 60)) .vnull .vnull (.vstr "p")
    none (.num 50) none false (by decide) (by decide) (by decide)

/-- Claim C6: a preset created with an empty `soundIntervals` sequence
omits the field from the submitted record (it is not stored as an empty
sequence), and the `getPresets` mapping turns the absent field back
into an empty sequence, so the round-tripped preset carries
`soundIntervals = []`. -/
theorem empty_soundIntervals_roundtrip (s : OAuthSession)
    (now uri cid : String) (cur : Option String) (name duration : JSValue)
    (hname1 : (!name.truthy || !name.isString) = false)
    (hname2 : decide (name.strLength > 100) = false)
    (hdur : (!duration.isNumber || duration.ltNum 0) = false) :
    ∃ req : CreateRecordRequest PresetRecordBody,
      createPreset (some s) now name duration (some []) = .ok req ∧
      req.record.soundIntervals = none ∧
      (mapPresetsResponse [⟨uri, cid, req.record.toRemoteValue⟩]
          cur).presets.map (fun p => p.soundIntervals) = [[]] := by
  refine ⟨{ repo := s.sub
            collection := "place.starting.preset"
            record := { type := "place.starting.preset"
                        name := name.asString
                        duration := duration.toNum.floor
                        createdAt := now
                        soundIntervals := none } }, ?_, rfl, ?_⟩
  · simp [createPreset, hname1, hname2, hdur, validateSoundIntervals,
      ensureSession, Except.bind]
  · simp [mapPresetsResponse, mapPresetRecord,
      PresetRecordBody.toRemoteValue]

/-- Claim C6 (witness): a concrete preset with empty intervals
round-trips to an empty interval sequence. -/
theorem empty_soundIntervals_roundtrip_witness :
    ∃ req : CreateRecordRequest PresetRecordBody,
      createPreset (some ⟨"did:plc:alice"⟩) "t" (.vstr "Morning")
          (.vnum (.num 300)) (some []) = .ok req ∧
      req.record.soundIntervals = none ∧
      (mapPresetsResponse [⟨"at://u/p/1", "cid1", req.record.toRemoteValue⟩]
          none).presets.map (fun p => p.soundIntervals) = [[]] :=
  empty_soundIntervals_roundtrip ⟨"did:plc:alice"⟩ "t" "at://u/p/1" "cid1"
    none (.vstr "Morning") (.vnum (.num 300)) (by decide) (by decide)
    (by decide)

/-- Claim C8: for every finite non-negative duration, both create
operations store `Math.floor` of the input — the greatest whole number
of seconds not above it, which for non-negative inputs coincides with
truncation toward zero (the last conjuncts pin the stored value to the
mathematical floor and its truncation bounds). -/
theorem duration_floor_persisted (s : OAuthSession) (now : String) (q : ℚ)
    (hq : 0 ≤ q) :
    (∃ req, createMeditationSession (some s) now (.vnum (.num q))
        .vnull .vnull = .ok req ∧
      req.record.duration = .num ((q.floor : ℤ) : ℚ)) ∧
    (∃ req, createPreset (some s) now (.vstr "p") (.vnum (.num q)) none =
        .ok req ∧
      req.record.duration = .num ((q.floor : ℤ) : ℚ)) ∧
    (q.floor : ℤ) = ⌊q⌋ ∧ ((q.floor : ℤ) : ℚ) ≤ q ∧
    q < ((q.floor : ℤ) : ℚ) + 1 ∧ 0 ≤ q.floor := by
  have hfl : (q.floor : ℤ) = ⌊q⌋ := (Rat.floor_def' q).trans Rat.floor_def.symm
  have hneg : ¬ q < 0 := not_lt.mpr hq
  have hguard : (!(JSValue.vnum (.num q)).isNumber ||
      (JSValue.vnum (.num q)).ltNum 0) = false := by
    simp [JSValue.isNumber, JSValue.ltNum, JSValue.toNum, JSNum.lt, hneg]
  refine ⟨⟨{ repo := s.sub
             collection := "place.starting.meditationSession"
             record := { type := "place.starting.meditationSession"
                         createdAt := now
                         duration := .num ((q.floor : ℤ) : ℚ)
                         presetId := none
                         notes := none } }, ?_, rfl⟩,
         ⟨{ repo := s.sub
            collection := "place.starting.preset"
            record := { type := "place.starting.preset"
                        name := "p"
                        duration := .num ((q.floor : ℤ) : ℚ)
                        createdAt := now
                        soundIntervals := none } }, ?_, rfl⟩,
         hfl, ?_, ?_, ?_⟩
  · simp [createMeditationSession, hguard, JSValue.truthy, ensureSession,
      Except.bind, JSValue.toNum, JSNum.floor]
  · have hp1 : decide ("p" ≠ "") = true := by decide
    have hp2 : decide ("p".length > 100) = false := by decide
    simp [createPreset, hguard, JSValue.truthy, JSValue.isString,
      JSValue.strLength, JSValue.asString, ensureSession, Except.bind,
      JSValue.toNum, JSNum.floor, hp1, hp2]
  · rw [hfl]
    exact_mod_cast Int.floor_le q
  · rw [hfl]
    exact_mod_cast Int.lt_floor_add_one q
  · rw [hfl]
    exact Int.floor_nonneg.mpr hq

/-- Claim C8 (witness): duration 7.9 is stored as 7 seconds. -/
theorem duration_floor_persisted_witness :
    (0 : ℚ) ≤ mkRat 79 10 ∧
    ((∃ req, createMeditationSession (some ⟨"did:plc:alice"⟩) "t"
        (.vnum (.num (mkRat 79 10))) .vnull .vnull = .ok req ∧
      req.record.duration = .num (((mkRat 79 10).floor : ℤ) : ℚ)) ∧
    (∃ req, createPreset (some ⟨"did:plc:alice"⟩) "t" (.vstr "p")
        (.vnum (.num (mkRat 79 10))) none = .ok req ∧
      req.record.duration = .num (((mkRat 79 10).floor : ℤ) : ℚ)) ∧
    ((mkRat 79 10).floor : ℤ) = ⌊(mkRat 79 10 : ℚ)⌋ ∧
    (((mkRat 79 10).floor : ℤ) : ℚ) ≤ mkRat 79 10 ∧
    (mkRat 79 10 : ℚ) < (((mkRat 79 10).floor : ℤ) : ℚ) + 1 ∧
    0 ≤ (mkRat 79 10).floor) ∧
    (mkRat 79 10).floor = 7 :=
  ⟨by decide,
   duration_floor_persisted ⟨"did:plc:alice"⟩ "t" (mkRat 79 10) (by decide),
   by decide⟩

/-- Claim C1 (counterexample): with an active session and a failing
remote revocation, a logout click leaves the local session reference in
place and does not transition to the login view — the revocation failure
does block the local clear, contradicting the claim. -/
theorem logout_revoke_failure_keeps_session :
    (logoutClickHandler ⟨.app, some ⟨"did:plc:alice"⟩, none⟩
        (.error ⟨"network down"⟩)).session = some ⟨"did:plc:alice"⟩ ∧
    (logoutClickHandler ⟨.app, some ⟨"did:plc:alice"⟩, none⟩
        (.error ⟨"network down"⟩)).screen ≠ Screen.login := by
  decide

/-- Claim C1 (amended): a logout click clears the local session and
shows the login view when the remote revocation succeeds (or when no
session exists, in which case revocation is skipped); but when a session
exists and revocation fails, the thrown error reaches the handler's
catch block before the local clear, so the session reference and the
screen are left unchanged and a "Logout failed" status is shown. -/
theorem logout_handler_behavior (st : UIState) (s : OAuthSession)
    (e : JSError) :
    logoutClickHandler { st with session := some s } (.ok ()) =
      { screen := .login, session := none,
        status := some ⟨"loginStatus", "Signed out successfully", false⟩ } ∧
    logoutClickHandler { st with session := none } (.ok ()) =
      { screen := .login, session := none,
        status := some ⟨"loginStatus", "Signed out successfully", false⟩ } ∧
    logoutClickHandler { st with session := none } (.error e) =
      { screen := .login, session := none,
        status := some ⟨"loginStatus", "Signed out successfully", false⟩ } ∧
    (logoutClickHandler { st with session := some s } (.error e)).session =
      some s ∧
    (logoutClickHandler { st with session := some s } (.error e)).screen =
      st.screen ∧
    (logoutClickHandler { st with session := some s } (.error e)).status =
      some ⟨"appStatus", "Logout failed: " ++ e.message, true⟩ := by
  refine ⟨rfl, rfl, rfl, rfl, rfl, rfl⟩

/-- Claim C3 (counterexample): a NaN duration is a non-finite number,
yet `createMeditationSession` accepts it — the `typeof`/`< 0` guard does
not reject NaN, and the call proceeds to the remote write with a NaN
duration in the record. -/
theorem createMeditationSession_nan_duration_accepted :
    createMeditationSession (some ⟨"did:plc:alice"⟩)
        "2024-01-01T00:00:00.000Z" (.vnum .nan) .vnull .vnull =
      .ok { repo := "did:plc:alice"
            collection := "place.starting.meditationSession"
            record := { type := "place.starting.meditationSession"
                        createdAt := "2024-01-01T00:00:00.000Z"
                        duration := .nan
                        presetId := none
                        notes := none } } := by
  decide

/-- Claim C3 (amended): every duration argument that is negative or not
a number makes `createMeditationSession` (for any optional arguments)
and `createPreset` (for any valid name) fail with the duration
ValidationError before any network call; but the guard only checks
`typeof` and `< 0`, so the non-finite numbers NaN and +Infinity pass
duration validation and reach the remote write (−Infinity is rejected
as negative, which the first part covers). -/
theorem duration_validation_behavior (sess : Option OAuthSession)
    (now : String) (d pid notes name : JSValue)
    (ivs : Option (List SoundIntervalArg)) (s : OAuthSession)
    (hbad : (!d.isNumber || d.ltNum 0) = true)
    (hname1 : (!name.truthy || !name.isString) = false)
    (hname2 : decide (name.strLength > 100) = false) :
    createMeditationSession sess now d pid notes =
      .error ⟨"Duration must be a non-negative number"⟩ ∧
    createPreset sess now name d ivs =
      .error ⟨"duration must be a non-negative number"⟩ ∧
    exceptOk (createMeditationSession (some s) now (.vnum .nan)
      .vnull .vnull) = true ∧
    exceptOk (createPreset (some s) now (.vstr "p") (.vnum .nan) none) =
      true ∧
    exceptOk (createMeditationSession (some s) now (.vnum .posInf)
      .vnull .vnull) = true := by
  refine ⟨?_, ?_, ?_, ?_, ?_⟩
  · simp [createMeditationSession, hbad]
  · simp [createPreset, hname1, hname2, hbad]
  · rfl
  · rfl
  · rfl

/-- Claim C4 (counterexample): a NaN limit lies outside [1,100], yet
`getPresets` does not reject it — `NaN < 1` and `NaN > 100` are both
false, so the bound check passes and the query is issued with a NaN
limit. -/
theorem getPresets_nan_limit_accepted :
    getPresetsQuery (some ⟨"did:plc:alice"⟩) (some .nan) none false =
      .ok { repo := "did:plc:alice"
            collection := "place.starting.preset"
            limit := .nan
            reverse := false
            cursor := none } := by
  decide

/-- Claim C4 (amended): for both listing operations, every limit other
than NaN that lies outside the inclusive range [1,100] — in particular
0 and 101 — fails with the limit ValidationError before any network
call (regardless of session state), and every limit inside the range —
in particular 1 and 100 — passes the bound check; NaN, however, also
passes the bound check even though it is not in [1,100]. -/
theorem limit_validation_behavior (sess : Option OAuthSession)
    (s : OAuthSession) (l : JSNum) (cursor : Option String) (rev : Bool) :
    (l ≠ .nan → specLimitInRange l = false →
      getMeditationSessionsQuery sess (some l) cursor rev =
        .error ⟨"limit must be between 1 and 100"⟩ ∧
      getPresetsQuery sess (some l) cursor rev =
        .error ⟨"limit must be between 1 and 100"⟩) ∧
    (specLimitInRange l = true →
      exceptOk (getMeditationSessionsQuery (some s) (some l) cursor rev) =
        true ∧
      exceptOk (getPresetsQuery (some s) (some l) cursor rev) = true) ∧
    exceptOk (getMeditationSessionsQuery (some s) (some .nan) cursor rev) =
      true ∧
    exceptOk (getPresetsQuery (some s) (some .nan) cursor rev) = true := by
  refine ⟨?_, ?_, ?_, ?_⟩
  · intro hnan hout
    have hguard : (JSNum.lt l (.num 1) || JSNum.lt (.num 100) l) = true := by
      cases l with
      | num q =>
          simp only [specLimitInRange, decide_eq_false_iff_not,
            not_and_or, not_le] at hout
          simp only [JSNum.lt, Bool.or_eq_true, decide_eq_true_eq]
          exact hout
      | nan => exact absurd rfl hnan
      | posInf => rfl
      | negInf => rfl
    constructor
    · simp [getMeditationSessionsQuery, hguard]
    · simp [getPresetsQuery, hguard]
  · intro hin
    have hguard : (JSNum.lt l (.num 1) || JSNum.lt (.num 100) l) = false := by
      cases l with
      | num q =>
          simp only [specLimitInRange, decide_eq_true_eq] at hin
          simp only [JSNum.lt, Bool.or_eq_false_iff,
            decide_eq_false_iff_not, not_lt]
          exact hin
      | nan => simp [specLimitInRange] at hin
      | posInf => simp [specLimitInRange] at hin
      | negInf => simp [specLimitInRange] at hin
    constructor
    · simp [getMeditationSessionsQuery, hguard, ensureSession, exceptOk,
        Except.bind]
    · simp [getPresetsQuery, hguard, ensureSession, exceptOk, Except.bind]
  · rfl
  · rfl

/-- Claim C7: for every listing response, the `total` field equals the
length of the mapped page of records (the source sets it to
`records.length`, not to any collection-wide count). -/
theorem listing_total_is_page_length (records : List RemoteRecord)
    (cur : Option String) :
    (mapMeditationSessionsResponse records cur).total =
      (mapMeditationSessionsResponse records cur).meditationSessions.length ∧
    (mapPresetsResponse records cur).total =
      (mapPresetsResponse records cur).presets.length := by
  constructor
  · simp [mapMeditationSessionsResponse]
  · simp [mapPresetsResponse]

/-- Claim C9 (counterexample): an empty-string cursor is non-null, yet
the `...(cursor && \x7b cursor \x7d)` spread drops it from the query —
the empty string is falsy, so the cursor is not passed through. -/
theorem empty_cursor_omitted :
    getPresetsQuery (some ⟨"did:plc:alice"⟩) none (some "") false =
      .ok { repo := "did:plc:alice"
            collection := "place.starting.preset"
            limit := .num 50
            reverse := false
            cursor := none } := by
  decide

/-- Claim C9 (amended): for both listing operations, a non-null and
non-empty cursor argument is passed through unchanged and uninterpreted
to the remote query; a null cursor is omitted from the query, and an
empty-string cursor (falsy in the spread guard) is also omitted despite
being non-null. -/
theorem cursor_passthrough_behavior (s : OAuthSession) (l : JSNum)
    (c : String) (rev : Bool) (hl : validLimit l) (hc : c ≠ "") :
    getMeditationSessionsQuery (some s) (some l) (some c) rev =
      .ok { repo := s.sub
            collection := "place.starting.meditationSession"
            limit := l
            reverse := rev
            cursor := some c } ∧
    getPresetsQuery (some s) (some l) (some c) rev =
      .ok { repo := s.sub
            collection := "place.starting.preset"
            limit := l
            reverse := rev
            cursor := some c } ∧
    getMeditationSessionsQuery (some s) (some l) none rev =
      .ok { repo := s.sub
            collection := "place.starting.meditationSession"
            limit := l
            reverse := rev
            cursor := none } ∧
    getPresetsQuery (some s) (some l) (some "") rev =
      .ok { repo := s.sub
            collection := "place.starting.preset"
            limit := l
            reverse := rev
            cursor := none } := by
  have hl' := hl
  unfold validLimit at hl'
  refine ⟨?_, ?_, ?_, ?_⟩
  · simp [getMeditationSessionsQuery, hl', ensureSession, hc, Except.bind]
  · simp [getPresetsQuery, hl', ensureSession, hc, Except.bind]
  · simp [getMeditationSessionsQuery, hl', ensureSession, Except.bind]
  · simp [getPresetsQuery, hl', ensureSession, Except.bind]

/-- Claim C10: `createMeditationSession` treats an empty-string
`presetId` or `notes` exactly like null — the falsy guard skips the
type and length checks, the field is omitted from the record, and the
call proceeds to the remote write without a ValidationError (shown here
for any duration that passes its own validation). -/
theorem empty_string_optionals_like_null (s : OAuthSession) (now : String)
    (d : JSValue) (hd : (!d.isNumber || d.ltNum 0) = false) :
    createMeditationSession (some s) now d (.vstr "") (.vstr "") =
      createMeditationSession (some s) now d .vnull .vnull ∧
    createMeditationSession (some s) now d (.vstr "") (.vstr "") =
      .ok { repo := s.sub
            collection := "place.starting.meditationSession"
            record := { type := "place.starting.meditationSession"
                        createdAt := now
                        duration := d.toNum.floor
                        presetId := none
                        notes := none } } := by
  constructor
  · simp [createMeditationSession, hd, JSValue.truthy]
  · simp [createMeditationSession, hd, JSValue.truthy, ensureSession,
      Except.bind]

/-- Claim C3 (witness): duration −1 is rejected by both creates, while
NaN and +Infinity durations are accepted. -/
theorem duration_validation_behavior_witness :
    createMeditationSession (some ⟨"did:plc:alice"⟩) "t"
        (.vnum (.num (mkRat (-1) 1))) .vnull .vnull =
      .error ⟨"Duration must be a non-negative number"⟩ ∧
    createPreset (some ⟨"did:plc:alice"⟩) "t" (.vstr "p")
        (.vnum (.num (mkRat (-1) 1))) none =
      .error ⟨"duration must be a non-negative number"⟩ ∧
    exceptOk (createMeditationSession (some ⟨"did:plc:alice"⟩) "t"
      (.vnum .nan) .vnull .vnull) = true ∧
    exceptOk (createPreset (some ⟨"did:plc:alice"⟩) "t" (.vstr "p")
      (.vnum .nan) none) = true ∧
    exceptOk (createMeditationSession (some ⟨"did:plc:alice"⟩) "t"
      (.vnum .posInf) .vnull .vnull) = true :=
  duration_validation_behavior (some ⟨"did:plc:alice"⟩) "t"
    (.vnum (.num (mkRat (-1) 1))) .vnull .vnull (.vstr "p") none
    ⟨"did:plc:alice"⟩ (by decide) (by decide) (by decide)

/-- Claim C4 (witness): limit 0 is outside [1,100] and not NaN, so both
listing operations reject it; limit 100 passes the bound check. -/
theorem limit_validation_behavior_witness :
    (getMeditationSessionsQuery (some ⟨"did:plc:alice"⟩) (some (.num 0))
        none false = .error ⟨"limit must be between 1 and 100"⟩ ∧
      getPresetsQuery (some ⟨"did:plc:alice"⟩) (some (.num 0)) none false =
        .error ⟨"limit must be between 1 and 100"⟩) ∧
    (exceptOk (getMeditationSessionsQuery (some ⟨"did:plc:alice"⟩)
        (some (.num 100)) none false) = true ∧
      exceptOk (getPresetsQuery (some ⟨"did:plc:alice"⟩) (some (.num 100))
        none false) = true) :=
  ⟨(limit_validation_behavior (some ⟨"did:plc:alice"⟩) ⟨"did:plc:alice"⟩
      (.num 0) none false).1 (by decide) (by decide),
   (limit_validation_behavior (some ⟨"did:plc:alice"⟩) ⟨"did:plc:alice"⟩
      (.num 100) none false).2.1 (by decide)⟩

/-- Claim C9 (witness): cursor "abc" is passed through unchanged, a null
cursor is omitted, and an empty-string cursor is omitted. -/
theorem cursor_passthrough_behavior_witness :
    getMeditationSessionsQuery (some ⟨"did:plc:alice"⟩) (some (.num 50))
        (some "abc") false =
      .ok { repo := "did:plc:alice"
            collection := "place.starting.meditationSession"
            limit := .num 50
            reverse := false
            cursor := some "abc" } ∧
    getPresetsQuery (some ⟨"did:plc:alice"⟩) (some (.num 50)) (some "abc")
        false =
      .ok { repo := "did:plc:alice"
            collection := "place.starting.preset"
            limit := .num 50
            reverse := false
            cursor := some "abc" } ∧
    getMeditationSessionsQuery (some ⟨"did:plc:alice"⟩) (some (.num 50))
        none false =
      .ok { repo := "did:plc:alice"
            collection := "place.starting.meditationSession"
            limit := .num 50
            reverse := false
            cursor := none } ∧
    getPresetsQuery (some ⟨"did:plc:alice"⟩) (some (.num 50)) (some "")
        false =
      .ok { repo := "did:plc:alice"
            collection := "place.starting.preset"
            limit := .num 50
            reverse := false
            cursor := none } :=
  cursor_passthrough_behavior ⟨"did:plc:alice"⟩ (.num 50) "abc" false
    (by decide) (by decide)

/-- Claim C10 (witness): with duration 60, empty-string presetId and
notes behave exactly like null and both fields are omitted. -/
theorem empty_string_optionals_like_null_witness :
    createMeditationSession (some ⟨"did:plc:alice"⟩) "t"
        (.vnum (.num 60)) (.vstr "") (.vstr "") =
      createMeditationSession (some ⟨"did:plc:alice"⟩) "t"
        (.vnum (.num 60)) .vnull .vnull ∧
    createMeditationSession (some ⟨"did:plc:alice"⟩) "t"
        (.vnum (.num 60)) (.vstr "") (.vstr "") =
      .ok { repo := "did:plc:alice"
            collection := "place.starting.meditationSession"
            record := { type := "place.starting.meditationSession"
                        createdAt := "t"
                        duration := (JSValue.vnum (.num 60)).toNum.floor
                        presetId := none
                        notes := none } } :=
  empty_string_optionals_like_null ⟨"did:plc:alice"⟩ "t"
    (.vnum (.num 60)) (by decide)

end Meditation
